import Mathlib

/-!
Shallow embedding of the request handlers and schema-initialization logic of
the rds-lambda-cdk-typescript repository.

The repository contains three HTTP handler variants in `src/lambda/handler.ts`
(separated by document markers):
* variant 1 (lines 21-135): MySQL handler with a try/catch/finally, an
  error-classification switch, and pagination normalization;
* variant 2 (lines 139-240): PostgreSQL `Pool` handler with a method switch
  (GET / POST / default 405) and a catch block that echoes the raw error
  message;
* variant 3 (lines 254-361): MySQL handler that validates `DB_HOST` first,
  wraps `createConnection` failures containing `ECONNREFUSED` into an error
  with message "Database connection failed", and classifies by message.

It also contains schema-initialization lambdas: `src/lib/db-init/index.ts`
(PostgreSQL `DatabaseInitializer` with DDL statements and a CloudFormation
response), and `src/unnamed/part_005` (two MySQL variants, the second of which
inserts sample rows on `Create` events only).

Every definition below is translated directly from the TypeScript source.
External effects (secret-store fetch, JSON parsing, connection establishment,
query execution) are injected as explicit outcome fields of a `World`
structure, so each handler becomes a pure, executable function from a world
to a response together with call counts of the external collaborators.
-/

/-- A JavaScript `Error` object as observed by the handlers: its `name`
property, its `constructor.name`, and its `message`. -/
structure JsError where
  name : String
  ctorName : String
  message : String
deriving DecidableEq

/-- A thrown JavaScript value: either an `Error` instance or some non-`Error`
value (the handlers test `error instanceof Error`). -/
inductive JsThrow where
  | err (e : JsError)
  | other
deriving DecidableEq

/-- `throw new Error(msg)`: a fresh error whose `name` and constructor name
are both `"Error"`. -/
def errThrow (msg : String) : JsThrow :=
  .err ⟨"Error", "Error", msg⟩

/-- `error instanceof Error ? error.message : 'Unknown error'` — the message
extraction used by the catch blocks. -/
def jsMessage : JsThrow → String
  | .err e => e.message
  | .other => "Unknown error"

/-- Containment of `pat` in a character list (used to model
`String.prototype.includes`). -/
def listContains (pat : List Char) : List Char → Bool
  | [] => pat.isEmpty
  | c :: cs => pat.isPrefixOf (c :: cs) || listContains pat cs

/-- `s.includes(pat)` on JavaScript strings. -/
def strContains (s pat : String) : Bool :=
  listContains pat.toList s.toList

/-- One decimal-digit value. -/
def digitVal (c : Char) : Option Nat :=
  if c.isDigit then some (c.toNat - 48) else none

/-- Parse a maximal leading run of decimal digits, JavaScript-`parseInt`
style: stop at the first non-digit; `none` when no digit was consumed. -/
def parseDigits : List Char → Option Nat → Option Nat
  | [], acc => acc
  | c :: cs, acc =>
    match digitVal c with
    | some d => parseDigits cs (some ((acc.getD 0) * 10 + d))
    | none => acc

/-- JavaScript `parseInt(s)` (radix 10): optional sign, maximal digit run,
`none` standing for `NaN`. -/
def parseIntJs (s : String) : Option Int :=
  match s.toList with
  | '-' :: rest => (parseDigits rest none).map (fun n => -(n : Int))
  | '+' :: rest => (parseDigits rest none).map (fun n => (n : Int))
  | cs => (parseDigits cs none).map (fun n => (n : Int))

/-- `Math.min(parsedLimit, 100)` — the limit normalization of handler
variants 1 and 3 (`src/lambda/handler.ts` lines 67 and 299). -/
def normLimit (l : Int) : Int := min l 100

/-- `Math.max(parsedOffset, 0)` — the offset normalization of handler
variants 1 and 3 (`src/lambda/handler.ts` lines 68 and 300). -/
def normOffset (o : Int) : Int := max o 0

/-- `Math.min` lifted to a possibly-`NaN` operand (NaN propagates). -/
def jsNormLimit (l : Option Int) : Option Int := l.map normLimit

/-- `Math.max` lifted to a possibly-`NaN` operand (NaN propagates). -/
def jsNormOffset (o : Option Int) : Option Int := o.map normOffset

/-- Addition on possibly-`NaN` integers (`offset + limit`). -/
def jsAdd : Option Int → Option Int → Option Int
  | some a, some b => some (a + b)
  | _, _ => none

/-- The database secret shape `{ username, password }` parsed from the secret
payload; a missing field is modelled as the empty string (both are falsy in
the JavaScript checks). -/
structure DBSecret where
  username : String
  password : String
deriving DecidableEq

/-- Rows returned by the users query, kept opaque. -/
abbrev Rows := List String

/-- Call counts of the external collaborators during one invocation:
secret-store fetches, connection/pool constructions, query executions, and
connection/pool release (`end`) calls. -/
structure Calls where
  secretCalls : Nat
  connCalls : Nat
  queryCalls : Nat
  endCalls : Nat
deriving DecidableEq

/-- Increment the release count when a connection was established — the
`finally` block of handler variants 1 and 3 (`connection.end()` runs exactly
when `connection` is defined; its own failure is caught and swallowed). -/
def bumpEnd (c : Calls) (connected : Bool) : Calls :=
  if connected then { c with endCalls := c.endCalls + 1 } else c

/-- The external world of handler variant 1 (`src/lambda/handler.ts` 21-135):
the inbound event fields it reads, the environment, and the outcome of each
awaited external call. -/
structure World1 where
  hasQueryParams : Bool
  limitParam : Option String
  offsetParam : Option String
  dbHost : Option String
  secretFetch : Except JsThrow (Option String)
  secretParse : String → Except JsThrow DBSecret
  connect : Except JsThrow Unit
  query : Option Int → Option Int → Except JsThrow Rows

/-- Response body of handler variants 1 and 3: either the success payload
(message `'Success'`, rows, pagination echo) or the error payload
`{ message, errorType }`. -/
inductive Body1 where
  | success (data : Rows) (limit offset nextOffset : Option Int)
  | failure (message : String) (errType : String)
deriving DecidableEq

/-- Response of handler variants 1 and 3. -/
structure Resp1 where
  status : Int
  body : Body1
deriving DecidableEq

/-- Effective `limit` query parameter of variant 1: default `'10'`, overridden
whenever `event.queryStringParameters` is present and the field is defined
(an empty string does override). -/
def qLimit1 (w : World1) : String :=
  if w.hasQueryParams then w.limitParam.getD "10" else "10"

/-- Effective `offset` query parameter of variant 1 (default `'0'`). -/
def qOffset1 (w : World1) : String :=
  if w.hasQueryParams then w.offsetParam.getD "0" else "0"

/-- The `try` block of handler variant 1: secret fetch, falsy-payload check,
JSON parse, `DB_HOST` check, connection, normalization, query, success
response. Returns the outcome, the calls made, and whether the connection was
established (for the `finally` block). -/
def try1 (w : World1) : Except JsThrow Resp1 × Calls × Bool :=
  match w.secretFetch with
  | .error t => (.error t, ⟨1, 0, 0, 0⟩, false)
  | .ok p =>
    if p.getD "" = "" then
      (.error (errThrow "Database credentials not found"), ⟨1, 0, 0, 0⟩, false)
    else
      match w.secretParse (p.getD "") with
      | .error t => (.error t, ⟨1, 0, 0, 0⟩, false)
      | .ok _ =>
        if w.dbHost.getD "" = "" then
          (.error (errThrow "DB_HOST environment variable is not set"), ⟨1, 0, 0, 0⟩, false)
        else
          match w.connect with
          | .error t => (.error t, ⟨1, 1, 0, 0⟩, false)
          | .ok _ =>
            let lim := jsNormLimit (parseIntJs (qLimit1 w))
            let off := jsNormOffset (parseIntJs (qOffset1 w))
            match w.query lim off with
            | .error t => (.error t, ⟨1, 1, 1, 0⟩, true)
            | .ok rows =>
              (.ok ⟨200, .success rows lim off (jsAdd off lim)⟩, ⟨1, 1, 1, 0⟩, true)

/-- The `catch` block of handler variant 1 (`src/lambda/handler.ts` 91-125):
switch on the error message, default status 500, `ECONNREFUSED` check, and
`errorType` from `error.name` (or `'UnknownError'` for non-`Error` values). -/
def catch1 (t : JsThrow) : Resp1 :=
  match t with
  | .other => ⟨500, .failure "Internal server error" "UnknownError"⟩
  | .err e =>
    if e.message = "Database credentials not found" then
      ⟨403, .failure e.message e.name⟩
    else if e.message = "DB_HOST environment variable is not set" then
      ⟨500, .failure "Server configuration error" e.name⟩
    else if strContains e.message "ECONNREFUSED" then
      ⟨503, .failure "Database connection failed" e.name⟩
    else
      ⟨500, .failure "Internal server error" e.name⟩

/-- Handler variant 1: try / catch / finally. -/
def handler1 (w : World1) : Resp1 × Calls :=
  match try1 w with
  | (.ok r, c, conn) => (r, bumpEnd c conn)
  | (.error t, c, conn) => (catch1 t, bumpEnd c conn)

/-- Independent characterization of "the invocation of variant 1 got past
connection establishment": secret fetched with a truthy payload, payload
parsed, `DB_HOST` truthy, and `createConnection` resolved. -/
def established1 (w : World1) : Bool :=
  match w.secretFetch with
  | .error _ => false
  | .ok p =>
    if p.getD "" = "" then false
    else
      match w.secretParse (p.getD "") with
      | .error _ => false
      | .ok _ =>
        if w.dbHost.getD "" = "" then false
        else
          match w.connect with
          | .error _ => false
          | .ok _ => true

/-- The external world of handler variant 2 (`src/lambda/handler.ts`
139-240): the PostgreSQL pool variant with a method switch. -/
structure World2 where
  httpMethod : String
  body : Option String
  bodyParse : String → Except JsThrow String
  secretFetch : Except JsThrow (Option String)
  secretParse : String → Except JsThrow DBSecret
  poolQuery : Except JsThrow String
  poolEnd : Except JsThrow Unit

/-- Response body of handler variant 2. The failure payload carries the raw
`error.message` (`body: { message, error }` in the source). -/
inductive Body2 where
  | getSuccess (timestamp : String)
  | postSuccess (parsedBody : String)
  | methodNotAllowed
  | failure (message : String) (rawError : String)
deriving DecidableEq

/-- Response of handler variant 2. -/
structure Resp2 where
  status : Int
  body : Body2
deriving DecidableEq

/-- The `catch` block of handler variant 2 (`src/lambda/handler.ts` 216-239):
always 500, message `'Internal server error'`, and the raw
`error.message` echoed in the `error` field. -/
def catch2 (t : JsThrow) : Resp2 :=
  ⟨500, .failure "Internal server error" (jsMessage t)⟩

/-- Handler variant 2: secret fetch and pool construction happen before the
method switch; `pool.end()` is called only on the GET and POST success paths;
there is no `finally` block. -/
def handler2 (w : World2) : Resp2 × Calls :=
  match w.secretFetch with
  | .error t => (catch2 t, ⟨1, 0, 0, 0⟩)
  | .ok p =>
    if p.getD "" = "" then
      (catch2 (errThrow "Database credentials not found"), ⟨1, 0, 0, 0⟩)
    else
      match w.secretParse (p.getD "") with
      | .error t => (catch2 t, ⟨1, 0, 0, 0⟩)
      | .ok _ =>
        if w.httpMethod = "GET" then
          match w.poolQuery with
          | .error t => (catch2 t, ⟨1, 1, 1, 0⟩)
          | .ok ts =>
            match w.poolEnd with
            | .error t => (catch2 t, ⟨1, 1, 1, 1⟩)
            | .ok _ => (⟨200, .getSuccess ts⟩, ⟨1, 1, 1, 1⟩)
        else if w.httpMethod = "POST" then
          match w.bodyParse (if w.body.getD "" = "" then "\x7b\x7d" else w.body.getD "") with
          | .error t => (catch2 t, ⟨1, 1, 0, 0⟩)
          | .ok j =>
            match w.poolEnd with
            | .error t => (catch2 t, ⟨1, 1, 0, 1⟩)
            | .ok _ => (⟨200, .postSuccess j⟩, ⟨1, 1, 0, 1⟩)
        else
          (⟨405, .methodNotAllowed⟩, ⟨1, 1, 0, 0⟩)

/-- The external world of handler variant 3 (`src/lambda/handler.ts`
254-361): like variant 1, but `DB_HOST` is validated first, query parameters
use `||` defaulting, and connection failures are message-inspected. -/
structure World3 where
  limitParam : Option String
  offsetParam : Option String
  dbHost : Option String
  secretFetch : Except JsThrow (Option String)
  secretParse : String → Except JsThrow DBSecret
  connect : Except JsError Unit
  query : Option Int → Option Int → Except JsThrow Rows

/-- `x || d` defaulting on an optional string (empty string falls back). -/
def orDefault (o : Option String) (d : String) : String :=
  if o.getD "" = "" then d else o.getD ""

/-- The `.catch` wrapper on `createConnection` in variant 3
(`src/lambda/handler.ts` 291-296): an establishment failure whose message
contains `ECONNREFUSED` becomes `new Error('Database connection failed')`;
any other failure is rethrown unchanged. -/
def wrapConnect3 (e : JsError) : JsThrow :=
  if strContains e.message "ECONNREFUSED" then
    errThrow "Database connection failed"
  else
    .err e

/-- The `try` block of handler variant 3. -/
def try3 (w : World3) : Except JsThrow Resp1 × Calls × Bool :=
  if w.dbHost.getD "" = "" then
    (.error (errThrow "Server configuration error"), ⟨0, 0, 0, 0⟩, false)
  else
    match w.secretFetch with
    | .error t => (.error t, ⟨1, 0, 0, 0⟩, false)
    | .ok p =>
      if p.getD "" = "" then
        (.error (errThrow "Database credentials not found"), ⟨1, 0, 0, 0⟩, false)
      else
        match w.secretParse (p.getD "") with
        | .error t => (.error t, ⟨1, 0, 0, 0⟩, false)
        | .ok _ =>
          match w.connect with
          | .error e => (.error (wrapConnect3 e), ⟨1, 1, 0, 0⟩, false)
          | .ok _ =>
            let lim := jsNormLimit (parseIntJs (orDefault w.limitParam "10"))
            let off := jsNormOffset (parseIntJs (orDefault w.offsetParam "0"))
            match w.query lim off with
            | .error t => (.error t, ⟨1, 1, 1, 0⟩, true)
            | .ok rows =>
              (.ok ⟨200, .success rows lim off (jsAdd off lim)⟩, ⟨1, 1, 1, 0⟩, true)

/-- The `catch` block of handler variant 3 (`src/lambda/handler.ts` 320-351):
switch on the error message with default 500 / `'Internal server error'`,
and `errorType` from `error.constructor.name` (default `'Error'`). -/
def catch3 (t : JsThrow) : Resp1 :=
  match t with
  | .other => ⟨500, .failure "Internal server error" "Error"⟩
  | .err e =>
    if e.message = "Server configuration error" then
      ⟨500, .failure e.message e.ctorName⟩
    else if e.message = "Database connection failed" then
      ⟨503, .failure e.message e.ctorName⟩
    else if e.message = "Database credentials not found" then
      ⟨500, .failure e.message e.ctorName⟩
    else
      ⟨500, .failure "Internal server error" e.ctorName⟩

/-- Handler variant 3: try / catch / finally. -/
def handler3 (w : World3) : Resp1 × Calls :=
  match try3 w with
  | (.ok r, c, conn) => (r, bumpEnd c conn)
  | (.error t, c, conn) => (catch3 t, bumpEnd c conn)

/-- Independent characterization of "the invocation of variant 3 got past
connection establishment". -/
def established3 (w : World3) : Bool :=
  if w.dbHost.getD "" = "" then false
  else
    match w.secretFetch with
    | .error _ => false
    | .ok p =>
      if p.getD "" = "" then false
      else
        match w.secretParse (p.getD "") with
        | .error _ => false
        | .ok _ =>
          match w.connect with
          | .error _ => false
          | .ok _ => true

/-- A CloudFormation custom-resource lifecycle event as consumed by the
schema-initialization handlers. -/
structure CfnEvent where
  RequestType : String
  StackId : String
  RequestId : String
  LogicalResourceId : String
deriving DecidableEq

/-- The CloudFormation custom-resource response produced by the
schema-initialization handlers. -/
structure CfnResponse where
  RequestId : String
  LogicalResourceId : String
  PhysicalResourceId : String
  StackId : String
  Status : String
  Reason : String
  NoEcho : Bool
deriving DecidableEq

/-- `DatabaseInitializer.createResponse` (`src/lib/db-init/index.ts`
166-181): echo the event identifiers, fixed physical id `'DBInitialization'`,
`NoEcho: false`. -/
def createResponse (ev : CfnEvent) (status : String) (reason : String) : CfnResponse :=
  { RequestId := ev.RequestId
    LogicalResourceId := ev.LogicalResourceId
    PhysicalResourceId := "DBInitialization"
    StackId := ev.StackId
    Status := status
    Reason := reason
    NoEcho := false }

/-- `DatabaseInitializer.getCredentials` (`src/lib/db-init/index.ts` 29-49):
fetch the secret, reject a falsy payload, parse it, reject missing username
or password, and wrap any failure (including its own) in
`'Failed to retrieve database credentials: '` plus the original message. -/
def getCredentials (fetch : Except JsThrow (Option String))
    (parse : String → Except JsThrow DBSecret) : Except JsThrow DBSecret :=
  let inner : Except JsThrow DBSecret :=
    match fetch with
    | .error t => .error t
    | .ok p =>
      if p.getD "" = "" then
        .error (errThrow "Database credentials not found in secret")
      else
        match parse (p.getD "") with
        | .error t => .error t
        | .ok c =>
          if c.username = "" ∨ c.password = "" then
            .error (errThrow "Invalid secret format: missing required credentials")
          else
            .ok c
  match inner with
  | .ok c => .ok c
  | .error t =>
    .error (errThrow ("Failed to retrieve database credentials: " ++ jsMessage t))

/-- The sequential body of the db-init `handler` (`src/lib/db-init/index.ts`
197-201): environment validation, credential resolution, then the DDL run;
the first failure propagates. -/
def dbInitOutcome (validate : Except JsThrow Unit)
    (creds : Except JsThrow DBSecret)
    (initDb : DBSecret → Except JsThrow Unit) : Except JsThrow Unit :=
  match validate with
  | .error t => .error t
  | .ok _ =>
    match creds with
    | .error t => .error t
    | .ok c => initDb c

/-- The db-init `handler` (`src/lib/db-init/index.ts` 183-217): the try/catch
around the sequential body, producing exactly one CloudFormation response. -/
def dbInitHandler (ev : CfnEvent) (validate : Except JsThrow Unit)
    (creds : Except JsThrow DBSecret)
    (initDb : DBSecret → Except JsThrow Unit) : CfnResponse :=
  match dbInitOutcome validate creds initDb with
  | .ok _ =>
    createResponse ev "SUCCESS" "Database initialization completed successfully"
  | .error t =>
    createResponse ev "FAILED"
      ("Database initialization failed: " ++ jsMessage t)

/-- The individual SQL statements issued by
`DatabaseInitializer.initializeDatabase` (`src/lib/db-init/index.ts` 51-152),
in source order, with their guarding structure made explicit. -/
inductive PgStmt where
  | setSession
  | createExtIfNotExists (name : String)
  | createTypeGuarded (name : String)
  | createTableIfNotExists (name : String)
  | createIndexIfNotExists (name : String)
  | createFunctionOrReplace (name : String)
  | dropTriggerIfExists (name : String)
  | createTrigger (name : String)
  | enableRowSecurity (table : String)
  | createPolicy (name : String)
deriving DecidableEq

/-- The statement sequence of `initializeDatabase`, exactly as issued by the
five `client.query` calls of the source, flattened in order. -/
def pgInitStmts : List PgStmt :=
  [ .setSession
  , .createExtIfNotExists "uuid-ossp"
  , .createExtIfNotExists "pgcrypto"
  , .createTypeGuarded "user_status"
  , .createTableIfNotExists "users"
  , .createIndexIfNotExists "idx_users_email"
  , .createIndexIfNotExists "idx_users_status"
  , .createIndexIfNotExists "idx_users_deleted_at"
  , .createFunctionOrReplace "update_updated_at"
  , .dropTriggerIfExists "users_updated_at"
  , .createTrigger "users_updated_at"
  , .enableRowSecurity "users"
  , .createPolicy "users_soft_delete"
  , .createPolicy "users_active_only" ]

/-- PostgreSQL DDL semantics over a catalog of existing object names:
`IF NOT EXISTS` / guarded / `OR REPLACE` forms never fail; an unguarded
`CREATE TRIGGER` or `CREATE POLICY` fails when the object already exists;
`SET` and `ALTER TABLE ... ENABLE ROW LEVEL SECURITY` are idempotent. -/
def execStmt (db : List String) : PgStmt → Except String (List String)
  | .setSession => .ok db
  | .createExtIfNotExists n =>
    if db.contains ("ext:" ++ n) then .ok db else .ok (("ext:" ++ n) :: db)
  | .createTypeGuarded n =>
    if db.contains ("type:" ++ n) then .ok db else .ok (("type:" ++ n) :: db)
  | .createTableIfNotExists n =>
    if db.contains ("table:" ++ n) then .ok db else .ok (("table:" ++ n) :: db)
  | .createIndexIfNotExists n =>
    if db.contains ("index:" ++ n) then .ok db else .ok (("index:" ++ n) :: db)
  | .createFunctionOrReplace n =>
    if db.contains ("function:" ++ n) then .ok db else .ok (("function:" ++ n) :: db)
  | .dropTriggerIfExists n => .ok (db.erase ("trigger:" ++ n))
  | .createTrigger n =>
    if db.contains ("trigger:" ++ n) then
      .error ("trigger " ++ n ++ " already exists")
    else
      .ok (("trigger:" ++ n) :: db)
  | .enableRowSecurity _ => .ok db
  | .createPolicy n =>
    if db.contains ("policy:" ++ n) then
      .error ("policy " ++ n ++ " already exists")
    else
      .ok (("policy:" ++ n) :: db)

/-- Run a statement list sequentially, stopping at the first failure (the
source awaits each `client.query` in order and lets the first rejection
propagate). -/
def execAll (db : List String) : List PgStmt → Except String (List String)
  | [] => .ok db
  | s :: rest =>
    match execStmt db s with
    | .error m => .error m
    | .ok db2 => execAll db2 rest

/-- Run the full statement list twice from an empty catalog — the second run
models re-invoking `initializeDatabase` against the state left by a
successful first run. -/
def execTwice (stmts : List PgStmt) : Except String (List String) :=
  match execAll [] stmts with
  | .error m => .error m
  | .ok db => execAll db stmts

/-- The phase of each statement per the spec's stated order: session
settings, extension/type creation, table creation, index creation, trigger
(re)creation, and row-level-security policy creation. -/
def stmtPhase : PgStmt → Nat
  | .setSession => 0
  | .createExtIfNotExists _ => 1
  | .createTypeGuarded _ => 1
  | .createTableIfNotExists _ => 2
  | .createIndexIfNotExists _ => 3
  | .createFunctionOrReplace _ => 4
  | .dropTriggerIfExists _ => 4
  | .createTrigger _ => 4
  | .enableRowSecurity _ => 5
  | .createPolicy _ => 5

/-- The statements executed by the basic MySQL schema initializer
(`src/unnamed/part_005`, second handler, lines 184-203). -/
inductive MysqlStmt where
  | createUsersTable
  | insertIgnoreSampleUsers (rows : List (String × String))
deriving DecidableEq

/-- The two sample rows inserted on `Create` events. -/
def sampleUsers : List (String × String) :=
  [("John Doe", "john@example.com"), ("Jane Smith", "jane@example.com")]

/-- The DDL/DML portion of the basic MySQL initializer once a connection is
available: create the users table, then insert the sample rows exactly when
the event's `RequestType` is `'Create'`. Returns the outcome and the list of
statements that were attempted, in order. -/
def basicInitRun (requestType : String)
    (exec : MysqlStmt → Except JsThrow Unit) :
    Except JsThrow Unit × List MysqlStmt :=
  match exec .createUsersTable with
  | .error t => (.error t, [.createUsersTable])
  | .ok _ =>
    if requestType = "Create" then
      match exec (.insertIgnoreSampleUsers sampleUsers) with
      | .error t => (.error t, [.createUsersTable, .insertIgnoreSampleUsers sampleUsers])
      | .ok _ => (.ok (), [.createUsersTable, .insertIgnoreSampleUsers sampleUsers])
    else
      (.ok (), [.createUsersTable])

/-- The classification branch taken by the variant-1 catch block: which case
of its message switch fires. -/
inductive ErrKind where
  | credsNotFound
  | configError
  | connRefused
  | uncategorized
  | nonError
deriving DecidableEq

/-- Branch of the variant-1 error classifier hit by a thrown value. -/
def kind1 : JsThrow → ErrKind
  | .other => .nonError
  | .err e =>
    if e.message = "Database credentials not found" then .credsNotFound
    else if e.message = "DB_HOST environment variable is not set" then .configError
    else if strContains e.message "ECONNREFUSED" then .connRefused
    else .uncategorized

/-- Branch of the variant-3 error classifier hit by a thrown value. -/
def kind3 : JsThrow → ErrKind
  | .other => .nonError
  | .err e =>
    if e.message = "Server configuration error" then .configError
    else if e.message = "Database connection failed" then .connRefused
    else if e.message = "Database credentials not found" then .credsNotFound
    else .uncategorized

/-- `error instanceof Error ? error.name : 'UnknownError'` — the `errorType`
field of variant 1 (`src/lambda/handler.ts` 123). -/
def errorType1 : JsThrow → String
  | .err e => e.name
  | .other => "UnknownError"

/-- `errorType` of variant 3: `error.constructor.name` for `Error` values and
the initial value `'Error'` otherwise (`src/lambda/handler.ts` 325-328). -/
def errorType3 : JsThrow → String
  | .err e => e.ctorName
  | .other => "Error"

/-- The `errorType` field of a variant-1/3 response body, when present. -/
def respErrType : Resp1 → Option String
  | ⟨_, .failure _ et⟩ => some et
  | _ => none

/-- Re-run only the first `n` statements after a full successful first run:
used to show the second run survives every statement before the policy
block. -/
def execTwicePrefix (n : Nat) : Except String (List String) :=
  match execAll [] pgInitStmts with
  | .error m => .error m
  | .ok db => execAll db (pgInitStmts.take n)

/-- A concrete variant-1 world whose `limit` query parameter is `'-5'` and
whose external calls all succeed. -/
def c1World : World1 :=
  { hasQueryParams := true
    limitParam := some "-5"
    offsetParam := some "0"
    dbHost := some "db.example.com"
    secretFetch := .ok (some "payload")
    secretParse := fun _ => .ok ⟨"user", "pass"⟩
    connect := .ok ()
    query := fun _ _ => .ok [] }

/-- A concrete variant-2 world with an unsupported method (`PUT`) and a
succeeding secret store. -/
def c2World : World2 :=
  { httpMethod := "PUT"
    body := none
    bodyParse := fun _ => .ok "parsed"
    secretFetch := .ok (some "payload")
    secretParse := fun _ => .ok ⟨"user", "pass"⟩
    poolQuery := .ok "now"
    poolEnd := .ok () }

/-- A concrete variant-2 world: a GET whose query execution fails after the
pool was created. -/
def c3FailWorld : World2 :=
  { httpMethod := "GET"
    body := none
    bodyParse := fun _ => .ok "parsed"
    secretFetch := .ok (some "payload")
    secretParse := fun _ => .ok ⟨"user", "pass"⟩
    poolQuery := .error (.err ⟨"Error", "Error", "Query failed"⟩)
    poolEnd := .ok () }

/-- A concrete variant-1 world on which every external call succeeds. -/
def c3OkWorld1 : World1 :=
  { hasQueryParams := false
    limitParam := none
    offsetParam := none
    dbHost := some "db.example.com"
    secretFetch := .ok (some "payload")
    secretParse := fun _ => .ok ⟨"user", "pass"⟩
    connect := .ok ()
    query := fun _ _ => .ok ["row"] }

/-- A concrete variant-2 world: a GET on which every external call
succeeds. -/
def c3OkWorld2 : World2 :=
  { httpMethod := "GET"
    body := none
    bodyParse := fun _ => .ok "parsed"
    secretFetch := .ok (some "payload")
    secretParse := fun _ => .ok ⟨"user", "pass"⟩
    poolQuery := .ok "now"
    poolEnd := .ok () }

/-- A concrete variant-3 world whose connection establishment fails with the
message `'Database connection failed'`, which does not contain
`ECONNREFUSED`. -/
def c4World : World3 :=
  { limitParam := none
    offsetParam := none
    dbHost := some "db.example.com"
    secretFetch := .ok (some "payload")
    secretParse := fun _ => .ok ⟨"user", "pass"⟩
    connect := .error ⟨"Error", "Error", "Database connection failed"⟩
    query := fun _ _ => .ok [] }

/-- A concrete variant-2 world whose secret fetch rejects with message
`'boom A'`. -/
def c8WorldA : World2 :=
  { httpMethod := "GET"
    body := none
    bodyParse := fun _ => .ok "parsed"
    secretFetch := .error (.err ⟨"Error", "Error", "boom A"⟩)
    secretParse := fun _ => .ok ⟨"user", "pass"⟩
    poolQuery := .ok "now"
    poolEnd := .ok () }

/-- A concrete variant-2 world whose secret fetch rejects with message
`'boom B'` — same error kind and name as `c8WorldA`, different message. -/
def c8WorldB : World2 :=
  { httpMethod := "GET"
    body := none
    bodyParse := fun _ => .ok "parsed"
    secretFetch := .error (.err ⟨"Error", "Error", "boom B"⟩)
    secretParse := fun _ => .ok ⟨"user", "pass"⟩
    poolQuery := .ok "now"
    poolEnd := .ok () }

/-- C1, counterexample. The claim says a negative `limit` input normalizes to
`0` and the normalized limit always lies in `[0, 100]`. In the code the limit
is only capped from above (`Math.min(parsed, 100)`), so `limit = -5`
normalizes to `-5`: the full variant-1 handler echoes `limit = -5`,
`nextOffset = -5` in its success body. -/
theorem c1_counterexample :
    normLimit (-5) = -5 ∧ normLimit (-5) ≠ 0 ∧ ¬ (0 : Int) ≤ normLimit (-5) ∧
    (handler1 c1World).1 =
      ⟨200, .success [] (some (-5)) (some 0) (some (-5))⟩ := by
  refine ⟨by decide, by decide, by decide, ?_⟩
  rfl

/-- C1, amended. Pagination normalization caps the limit from above at 100
and the offset from below at 0, but a negative limit is kept unchanged, not
floor-clamped to 0: after normalization `limit ≤ 100` and `offset ≥ 0` hold,
while `0 ≤ limit` does not hold in general. -/
theorem c1_amended (l o : Int) :
    (100 < l → normLimit l = 100) ∧
    (o < 0 → normOffset o = 0) ∧
    (l < 0 → normLimit l = l) ∧
    normLimit l ≤ 100 ∧ 0 ≤ normOffset o := by
  refine ⟨?_, ?_, ?_, ?_, ?_⟩ <;>
    simp [normLimit, normOffset, min_def, max_def] <;> omega

/-- C1, witness: the amended statement at `limit = 1000`, `offset = -5`, and
`limit = -7`. -/
theorem c1_witness :
    normLimit 1000 = 100 ∧ normOffset (-5) = 0 ∧ normLimit (-7) = -7 :=
  ⟨(c1_amended 1000 (-5)).1 (by decide),
   (c1_amended 1000 (-5)).2.1 (by decide),
   (c1_amended (-7) 0).2.2.1 (by decide)⟩

/-- C2, counterexample. The claim says an unsupported method causes no
secret-store call (call count zero) and rejection before credential
resolution. In the pg variant the secret fetch (and pool construction) happen
before the method switch: a `PUT` with a succeeding secret store yields
status 405 but a secret-store call count of 1. -/
theorem c2_counterexample :
    handler2 c2World = (⟨405, .methodNotAllowed⟩, ⟨1, 1, 0, 0⟩) ∧
    (handler2 c2World).2.secretCalls ≠ 0 := by
  refine ⟨?_, by decide⟩
  rfl

/-- C2, amended. For every request whose method is neither GET nor POST,
provided credential fetch and parse succeed, the handler returns status
exactly 405 with no query execution and no pool release — but the rejection
happens after credential resolution and pool construction, so the
secret-store call count is 1 (and one pool is constructed), not 0. -/
theorem c2_amended (w : World2) (s : String) (c : DBSecret)
    (hf : w.secretFetch = .ok (some s)) (hs : s ≠ "")
    (hp : w.secretParse s = .ok c)
    (hg : w.httpMethod ≠ "GET") (hpost : w.httpMethod ≠ "POST") :
    handler2 w = (⟨405, .methodNotAllowed⟩, ⟨1, 1, 0, 0⟩) := by
  simp [handler2, hf, Option.getD, hs, hp, hg, hpost]

/-- C2, witness: the amended statement at the concrete `PUT` world. -/
theorem c2_witness :
    handler2 c2World = (⟨405, .methodNotAllowed⟩, ⟨1, 1, 0, 0⟩) :=
  c2_amended c2World "payload" ⟨"user", "pass"⟩ rfl (by decide) rfl
    (by decide) (by decide)

/-- C3, counterexample. The claim says release is invoked exactly once on
every failure path that got past connection establishment, including
query-execution failure. In the pg variant a GET whose query fails skips
`pool.end()` entirely: the query was attempted (count 1, so the invocation
got past pool creation) yet the release count is 0. -/
theorem c3_counterexample :
    (handler2 c3FailWorld).2.queryCalls = 1 ∧
    (handler2 c3FailWorld).2.endCalls = 0 ∧
    (handler2 c3FailWorld).1.status = 500 := by
  refine ⟨?_, ?_, ?_⟩ <;> rfl

/-- C3, amended. In the mysql variants (1 and 3) the `finally` block releases
the connection exactly once whenever establishment succeeded — on the success
path and on the query-failure path alike — and zero times before
establishment. In the pg variant (2) the release runs exactly once on the GET
and POST success paths only: it runs zero times on the unsupported-method
fast path and zero times on every failure path, including query-execution
failure after the pool was created. -/
theorem c3_amended :
    (∀ w : World1, (handler1 w).2.endCalls = if established1 w then 1 else 0) ∧
    (∀ w : World3, (handler3 w).2.endCalls = if established3 w then 1 else 0) ∧
    (∀ (w : World2) (s : String) (c : DBSecret),
      w.secretFetch = .ok (some s) → s ≠ "" → w.secretParse s = .ok c →
      (w.httpMethod = "GET" →
        (∀ ts, w.poolQuery = .ok ts → (handler2 w).2.endCalls = 1) ∧
        (∀ t, w.poolQuery = .error t → (handler2 w).2.endCalls = 0)) ∧
      (w.httpMethod = "POST" →
        ∀ j, w.bodyParse (if w.body.getD "" = "" then "\x7b\x7d" else w.body.getD "") = .ok j →
          (handler2 w).2.endCalls = 1) ∧
      (w.httpMethod ≠ "GET" → w.httpMethod ≠ "POST" →
        (handler2 w).2.endCalls = 0)) := by
  refine ⟨?_, ?_, ?_⟩
  · intro w
    rcases hf : w.secretFetch with t | p
    · simp [handler1, try1, established1, hf, bumpEnd]
    · rcases p with _ | s
      · simp [handler1, try1, established1, hf, bumpEnd]
      · by_cases hs : s = ""
        · simp [handler1, try1, established1, hf, hs, bumpEnd]
        · rcases hp : w.secretParse s with t | c
          · simp [handler1, try1, established1, hf, hs, hp, bumpEnd]
          · by_cases hh : w.dbHost.getD "" = ""
            · simp [handler1, try1, established1, hf, hs, hp, hh, bumpEnd]
            · rcases hc : w.connect with t | u
              · simp [handler1, try1, established1, hf, hs, hp, hh, hc, bumpEnd]
              · rcases hq : w.query (jsNormLimit (parseIntJs (qLimit1 w)))
                    (jsNormOffset (parseIntJs (qOffset1 w))) with t | rows <;>
                  simp [handler1, try1, established1, hf, hs, hp, hh, hc, hq, bumpEnd]
  · intro w
    by_cases hh : w.dbHost.getD "" = ""
    · simp [handler3, try3, established3, hh, bumpEnd]
    · rcases hf : w.secretFetch with t | p
      · simp [handler3, try3, established3, hh, hf, bumpEnd]
      · rcases p with _ | s
        · simp [handler3, try3, established3, hh, hf, bumpEnd]
        · by_cases hs : s = ""
          · simp [handler3, try3, established3, hh, hf, hs, bumpEnd]
          · rcases hp : w.secretParse s with t | c
            · simp [handler3, try3, established3, hh, hf, hs, hp, bumpEnd]
            · rcases hc : w.connect with t | u
              · simp [handler3, try3, established3, hh, hf, hs, hp, hc, bumpEnd]
              · rcases hq : w.query (jsNormLimit (parseIntJs (orDefault w.limitParam "10")))
                    (jsNormOffset (parseIntJs (orDefault w.offsetParam "0"))) with t | rows <;>
                  simp [handler3, try3, established3, hh, hf, hs, hp, hc, hq, bumpEnd]
  · intro w s c hf hs hp
    refine ⟨?_, ?_, ?_⟩
    · intro hm
      refine ⟨?_, ?_⟩
      · intro ts hq
        rcases he : w.poolEnd with t | u <;>
          simp [handler2, hf, Option.getD, hs, hp, hm, hq, he]
      · intro t hq
        simp [handler2, hf, Option.getD, hs, hp, hm, hq]
    · intro hm j hj
      rcases he : w.poolEnd with t | u <;>
        simp [handler2, hf, hs, hp, hm, hj, he]
    · intro hg hpost
      simp [handler2, hf, Option.getD, hs, hp, hg, hpost]

/-- C3, witness: both mysql-variant release-once facts and the pg GET success
path, at concrete worlds where establishment succeeds. -/
theorem c3_witness :
    (handler1 c3OkWorld1).2.endCalls = 1 ∧
    (handler2 c3OkWorld2).2.endCalls = 1 := by
  constructor
  · exact (c3_amended.1 c3OkWorld1).trans (by rfl)
  · exact ((c3_amended.2.2 c3OkWorld2 "payload" ⟨"user", "pass"⟩ rfl (by decide) rfl).1
      rfl).1 "now" rfl

/-- C4, counterexample. The claim says establishment failures other than
`ECONNREFUSED` ones do not map to 503. In variant 3 the `.catch` wrapper
rethrows non-`ECONNREFUSED` failures unchanged and the catch block maps the
message `'Database connection failed'` to 503 — so an establishment failure
carrying exactly that message (which does not contain `ECONNREFUSED`) is
answered with 503. -/
theorem c4_counterexample :
    strContains "Database connection failed" "ECONNREFUSED" = false ∧
    (handler3 c4World).1.status = 503 := by
  refine ⟨by decide, ?_⟩
  rfl

/-- C4, amended. An establishment failure whose message contains
`ECONNREFUSED` is answered with status exactly 503 and the safe message
`'Database connection failed'` in both classifying variants; in variant 1 no
other thrown error maps to 503, and in variant 3 no other establishment
failure maps to 503 unless its raw message is exactly
`'Database connection failed'`. -/
theorem c4_amended :
    (∀ e : JsError, strContains e.message "ECONNREFUSED" = true →
      catch1 (.err e) = ⟨503, .failure "Database connection failed" e.name⟩) ∧
    (∀ e : JsError, strContains e.message "ECONNREFUSED" = false →
      (catch1 (.err e)).status ≠ 503) ∧
    (∀ e : JsError, strContains e.message "ECONNREFUSED" = true →
      catch3 (wrapConnect3 e) = ⟨503, .failure "Database connection failed" "Error"⟩) ∧
    (∀ e : JsError, strContains e.message "ECONNREFUSED" = false →
      e.message ≠ "Database connection failed" →
      (catch3 (wrapConnect3 e)).status ≠ 503) := by
  refine ⟨?_, ?_, ?_, ?_⟩
  · intro e h
    have h1 : e.message ≠ "Database credentials not found" := by
      intro hm
      rw [hm] at h
      exact absurd h (by decide)
    have h2 : e.message ≠ "DB_HOST environment variable is not set" := by
      intro hm
      rw [hm] at h
      exact absurd h (by decide)
    simp [catch1, h1, h2, h]
  · intro e h
    simp only [catch1]
    split_ifs with h1 h2 h3 <;> simp_all
  · intro e h
    simp [wrapConnect3, h, catch3, errThrow]
  · intro e h hm
    simp only [wrapConnect3, h, Bool.false_eq_true, if_false, catch3]
    split_ifs with h1 h2 <;> simp_all

/-- C4, witness: a refused-connection message maps to 503 with the safe
message in both variants, and an unrelated message does not map to 503 in
either. -/
theorem c4_witness :
    catch1 (.err ⟨"Error", "Error", "connect ECONNREFUSED 127.0.0.1:3306"⟩) =
      ⟨503, .failure "Database connection failed" "Error"⟩ ∧
    (catch1 (.err ⟨"Error", "Error", "access denied"⟩)).status ≠ 503 ∧
    catch3 (wrapConnect3 ⟨"Error", "Error", "connect ECONNREFUSED 127.0.0.1:3306"⟩) =
      ⟨503, .failure "Database connection failed" "Error"⟩ ∧
    (catch3 (wrapConnect3 ⟨"Error", "Error", "access denied"⟩)).status ≠ 503 :=
  ⟨c4_amended.1 ⟨"Error", "Error", "connect ECONNREFUSED 127.0.0.1:3306"⟩ (by decide),
   c4_amended.2.1 ⟨"Error", "Error", "access denied"⟩ (by decide),
   c4_amended.2.2.1 ⟨"Error", "Error", "connect ECONNREFUSED 127.0.0.1:3306"⟩ (by decide),
   c4_amended.2.2.2 ⟨"Error", "Error", "access denied"⟩ (by decide) (by decide)⟩

/-- C5, confirmed. The db-init handler is a total function producing exactly
one response per lifecycle event: it echoes `RequestId`, `StackId` and
`LogicalResourceId` unchanged, uses the fixed `PhysicalResourceId`
`'DBInitialization'`, reports `SUCCESS` when every stage succeeded, and on
any failure at any stage reports `FAILED` with the failure message carried in
`Reason`. -/
theorem c5_theorem (ev : CfnEvent) (v : Except JsThrow Unit)
    (c : Except JsThrow DBSecret) (i : DBSecret → Except JsThrow Unit) :
    (dbInitHandler ev v c i).RequestId = ev.RequestId ∧
    (dbInitHandler ev v c i).StackId = ev.StackId ∧
    (dbInitHandler ev v c i).LogicalResourceId = ev.LogicalResourceId ∧
    (dbInitHandler ev v c i).PhysicalResourceId = "DBInitialization" ∧
    (dbInitOutcome v c i = .ok () → (dbInitHandler ev v c i).Status = "SUCCESS") ∧
    (∀ t, dbInitOutcome v c i = .error t →
      (dbInitHandler ev v c i).Status = "FAILED" ∧
      (dbInitHandler ev v c i).Reason =
        "Database initialization failed: " ++ jsMessage t) := by
  rcases h : dbInitOutcome v c i with t | u <;>
    simp [dbInitHandler, h, createResponse]

/-- C5, witness: the response contract at a concrete event, once with all
stages succeeding and once with a failing validation stage. -/
theorem c5_witness :
    (dbInitHandler ⟨"Create", "stack-1", "req-1", "res-1"⟩ (.ok ())
      (.ok ⟨"user", "pass"⟩) (fun _ => .ok ())).Status = "SUCCESS" ∧
    (dbInitHandler ⟨"Create", "stack-1", "req-1", "res-1"⟩
      (.error (errThrow "nope")) (.ok ⟨"user", "pass"⟩)
      (fun _ => .ok ())).Status = "FAILED" ∧
    (dbInitHandler ⟨"Create", "stack-1", "req-1", "res-1"⟩
      (.error (errThrow "nope")) (.ok ⟨"user", "pass"⟩)
      (fun _ => .ok ())).RequestId = "req-1" :=
  ⟨ ( c5_theorem ⟨"Create", "stack-1", "req-1", "res-1"⟩ (.ok ())
      (.ok ⟨"user", "pass"⟩) (fun _ => .ok ())).2.2.2.2.1 rfl,
   ( ( c5_theorem ⟨"Create", "stack-1", "req-1", "res-1"⟩
      (.error (errThrow "nope")) (.ok ⟨"user", "pass"⟩)
      (fun _ => .ok ())).2.2.2.2.2 (errThrow "nope") rfl).1,
   ( c5_theorem ⟨"Create", "stack-1", "req-1", "res-1"⟩
      (.error (errThrow "nope")) (.ok ⟨"user", "pass"⟩)
      (fun _ => .ok ())).1⟩

/-- C6, counterexample. The claim says a second run of the DDL procedure
succeeds because every statement is guarded. The two `CREATE POLICY`
statements carry no existence guard: the first run from an empty catalog
succeeds, and the second run over the resulting state fails at
`CREATE POLICY users_soft_delete`. -/
theorem c6_counterexample :
    (execAll [] pgInitStmts).isOk = true ∧
    execTwice pgInitStmts = .error "policy users_soft_delete already exists" := by
  exact ⟨rfl, rfl⟩

/-- C6, amended. The statements execute sequentially in the stated phase
order (session settings, extension/type creation, table creation, index
creation, trigger re-creation, row-level-security statements); the first run
succeeds from an empty catalog; a second run succeeds through every statement
up to and including the row-level-security enable (the first twelve, all
guarded by existence checks, `IF NOT EXISTS`, `OR REPLACE`, or
drop-then-create); but the procedure is not idempotent: the full second run
fails at the unguarded `CREATE POLICY users_soft_delete`. -/
theorem c6_amended :
    List.Sorted (· ≤ ·) (pgInitStmts.map stmtPhase) ∧
    (execAll [] pgInitStmts).isOk = true ∧
    (execTwicePrefix 12).isOk = true ∧
    execTwice pgInitStmts = .error "policy users_soft_delete already exists" := by
  refine ⟨by decide, rfl, rfl, rfl⟩

/-- C7, confirmed. `getCredentials` fails when the store returns no payload
(the `CredentialsNotFound` case, message
`'Database credentials not found in secret'`), fails when the parsed payload
lacks a non-empty username or password (the `InvalidCredentialsFormat` case,
message `'Invalid secret format: missing required credentials'`), returns
only credential pairs with both fields non-empty, and wraps any transport
failure with the original message preserved after the
`'Failed to retrieve database credentials: '` prefix. -/
theorem c7_theorem :
    (∀ parse, getCredentials (.ok none) parse =
      .error (errThrow
        "Failed to retrieve database credentials: Database credentials not found in secret")) ∧
    (∀ (s : String) (parse : String → Except JsThrow DBSecret) (c : DBSecret),
      s ≠ "" → parse s = .ok c → (c.username = "" ∨ c.password = "") →
      getCredentials (.ok (some s)) parse =
        .error (errThrow
          "Failed to retrieve database credentials: Invalid secret format: missing required credentials")) ∧
    (∀ (fetch : Except JsThrow (Option String))
        (parse : String → Except JsThrow DBSecret) (c : DBSecret),
      getCredentials fetch parse = .ok c →
      c.username ≠ "" ∧ c.password ≠ "") ∧
    (∀ (t : JsThrow) (parse : String → Except JsThrow DBSecret),
      getCredentials (.error t) parse =
        .error (errThrow ("Failed to retrieve database credentials: " ++ jsMessage t))) := by
  refine ⟨?_, ?_, ?_, ?_⟩
  · intro parse
    rfl
  · intro s parse c hs hp hcp
    simp [getCredentials, hs, hp, hcp, errThrow, jsMessage]
  · intro fetch parse c h
    rcases hf : fetch with t | p
    · rw [hf] at h
      simp [getCredentials] at h
    · rw [hf] at h
      by_cases hp0 : p.getD "" = ""
      · simp [getCredentials, hp0] at h
      · rcases hpr : parse (p.getD "") with t | cred
        · simp [getCredentials, hp0, hpr] at h
        · by_cases hemp : cred.username = "" ∨ cred.password = ""
          · simp [getCredentials, hp0, hpr, hemp] at h
          · simp [getCredentials, hp0, hpr, hemp] at h
            push_neg at hemp
            rw [← h]
            exact hemp
  · intro t parse
    rfl

/-- C7, witness: the four clauses at concrete inputs — an empty store
payload, a payload parsing to an empty username, a successful resolution, and
a transport failure with message `'boom'`. -/
theorem c7_witness :
    getCredentials (.ok none) (fun _ => .ok ⟨"user", "pass"⟩) =
      .error (errThrow
        "Failed to retrieve database credentials: Database credentials not found in secret") ∧
    getCredentials (.ok (some "payload")) (fun _ => .ok ⟨"", "pass"⟩) =
      .error (errThrow
        "Failed to retrieve database credentials: Invalid secret format: missing required credentials") ∧
    ("user" : String) ≠ "" ∧ ("pass" : String) ≠ "" ∧
    getCredentials (.error (.err ⟨"Error", "Error", "boom"⟩))
        (fun _ => .ok ⟨"user", "pass"⟩) =
      .error (errThrow ("Failed to retrieve database credentials: " ++ "boom")) :=
  ⟨c7_theorem.1 (fun _ => .ok ⟨"user", "pass"⟩),
   c7_theorem.2.1 "payload" (fun _ => .ok ⟨"", "pass"⟩) ⟨"", "pass"⟩
     (by decide) rfl (Or.inl rfl),
   (c7_theorem.2.2.1 (.ok (some "payload")) (fun _ => .ok ⟨"user", "pass"⟩)
     ⟨"user", "pass"⟩ rfl).1,
   (c7_theorem.2.2.1 (.ok (some "payload")) (fun _ => .ok ⟨"user", "pass"⟩)
     ⟨"user", "pass"⟩ rfl).2,
   c7_theorem.2.2.2 (.err ⟨"Error", "Error", "boom"⟩) (fun _ => .ok ⟨"user", "pass"⟩)⟩

/-- C8, counterexample. The claim says every failing invocation's body
contains nothing beyond the safe message and the error-kind label, so two
failures of the same kind with different raw messages produce identical
bodies. The pg variant's catch block echoes the raw `error.message`: two
secret-fetch failures of the same kind and name but different messages
produce different bodies. -/
theorem c8_counterexample :
    (handler2 c8WorldA).1 = ⟨500, .failure "Internal server error" "boom A"⟩ ∧
    (handler2 c8WorldB).1 = ⟨500, .failure "Internal server error" "boom B"⟩ ∧
    (handler2 c8WorldA).1.body ≠ (handler2 c8WorldB).1.body := by
  refine ⟨rfl, rfl, by decide⟩

/-- C8, amended. In the hardened mysql variants (1 and 3) the failure
response is fully determined by the classifier branch and the `errorType`
label: two thrown values with the same classification and the same
name/constructor name produce identical responses, whatever their raw
message text. The pg variant (2) is exempt: its catch block copies the raw
`error.message` into the response body. -/
theorem c8_amended :
    (∀ t1 t2 : JsThrow, kind1 t1 = kind1 t2 → errorType1 t1 = errorType1 t2 →
      catch1 t1 = catch1 t2) ∧
    (∀ t1 t2 : JsThrow, kind3 t1 = kind3 t2 → errorType3 t1 = errorType3 t2 →
      catch3 t1 = catch3 t2) ∧
    (∀ e : JsError,
      catch2 (.err e) = ⟨500, .failure "Internal server error" e.message⟩) := by
  refine ⟨?_, ?_, ?_⟩
  · intro t1 t2 hk ht
    cases t1 with
    | other =>
      cases t2 with
      | other => rfl
      | err e =>
        simp only [kind1] at hk
        split_ifs at hk
    | err e1 =>
      cases t2 with
      | other =>
        simp only [kind1] at hk
        split_ifs at hk
      | err e2 =>
        simp only [errorType1] at ht
        simp only [kind1] at hk
        simp only [catch1]
        split_ifs at hk ⊢ <;> simp_all
  · intro t1 t2 hk ht
    cases t1 with
    | other =>
      cases t2 with
      | other => rfl
      | err e =>
        simp only [kind3] at hk
        split_ifs at hk
    | err e1 =>
      cases t2 with
      | other =>
        simp only [kind3] at hk
        split_ifs at hk
      | err e2 =>
        simp only [errorType3] at ht
        simp only [kind3] at hk
        simp only [catch3]
        split_ifs at hk ⊢ <;> simp_all
  · intro e
    rfl

/-- C8, witness: two uncategorized errors with equal names but different
messages map to the same response in both hardened variants. -/
theorem c8_witness :
    catch1 (.err ⟨"Error", "Error", "boom A"⟩) =
      catch1 (.err ⟨"Error", "Error", "boom B"⟩) ∧
    catch3 (.err ⟨"TypeError", "TypeError", "boom A"⟩) =
      catch3 (.err ⟨"TypeError", "TypeError", "boom B"⟩) :=
  ⟨c8_amended.1 (.err ⟨"Error", "Error", "boom A"⟩)
      (.err ⟨"Error", "Error", "boom B"⟩) (by decide) (by decide),
   c8_amended.2.1 (.err ⟨"TypeError", "TypeError", "boom A"⟩)
      (.err ⟨"TypeError", "TypeError", "boom B"⟩) (by decide) (by decide)⟩

/-- C9, confirmed. On the error path the response body carries an
`errorType` field: in variant 1 it is the thrown error's `name` when the
value is an `Error` and `'UnknownError'` otherwise; in variant 3 it is the
error's constructor name when the value is an `Error` and `'Error'`
otherwise; and the full handlers produce exactly the catch-block response
whenever the try block fails. -/
theorem c9_theorem :
    (∀ e : JsError, respErrType (catch1 (.err e)) = some e.name) ∧
    respErrType (catch1 .other) = some "UnknownError" ∧
    (∀ e : JsError, respErrType (catch3 (.err e)) = some e.ctorName) ∧
    respErrType (catch3 .other) = some "Error" ∧
    (∀ (w : World1) (t : JsThrow), (try1 w).1 = .error t →
      (handler1 w).1 = catch1 t) ∧
    (∀ (w : World3) (t : JsThrow), (try3 w).1 = .error t →
      (handler3 w).1 = catch3 t) := by
  refine ⟨?_, rfl, ?_, rfl, ?_, ?_⟩
  · intro e
    simp only [catch1]
    split_ifs <;> rfl
  · intro e
    simp only [catch3]
    split_ifs <;> rfl
  · intro w t h
    rcases htr : try1 w with ⟨res, c, conn⟩
    rw [htr] at h
    simp only at h
    subst h
    simp [handler1, htr]
  · intro w t h
    rcases htr : try3 w with ⟨res, c, conn⟩
    rw [htr] at h
    simp only at h
    subst h
    simp [handler3, htr]

/-- C9, witness: the `errorType` extraction at a `RangeError` whose
constructor name differs from its `name`, and the full variant-1 handler on
a world whose secret fetch rejects. -/
theorem c9_witness :
    respErrType (catch1 (.err ⟨"RangeError", "RangeError", "boom"⟩)) =
      some "RangeError" ∧
    respErrType (catch3 (.err ⟨"RangeError", "TypeError", "boom"⟩)) =
      some "TypeError" ∧
    (handler1
      { hasQueryParams := false
        limitParam := none
        offsetParam := none
        dbHost := some "db.example.com"
        secretFetch := .error (errThrow "boom")
        secretParse := fun _ => .ok ⟨"user", "pass"⟩
        connect := .ok ()
        query := fun _ _ => .ok [] }).1 = catch1 (errThrow "boom") :=
  ⟨c9_theorem.1 ⟨"RangeError", "RangeError", "boom"⟩,
   c9_theorem.2.2.1 ⟨"RangeError", "TypeError", "boom"⟩,
   c9_theorem.2.2.2.2.1 _ (errThrow "boom") rfl⟩

/-- C10, confirmed. When every statement executes successfully, the basic
MySQL initializer attempts the sample-row `INSERT IGNORE` exactly when the
event's `RequestType` is `'Create'`: the attempted statement list is the
table creation followed by the insert for `Create`, and the table creation
alone for any other request type (such as `Update` or `Delete`). -/
theorem c10_theorem (rt : String) (exec : MysqlStmt → Except JsThrow Unit)
    (hok : ∀ s, exec s = .ok ()) :
    ((MysqlStmt.insertIgnoreSampleUsers sampleUsers ∈ (basicInitRun rt exec).2) ↔
      rt = "Create") ∧
    MysqlStmt.createUsersTable ∈ (basicInitRun rt exec).2 ∧
    (rt = "Create" → (basicInitRun rt exec).2 =
      [.createUsersTable, .insertIgnoreSampleUsers sampleUsers]) ∧
    (rt ≠ "Create" → (basicInitRun rt exec).2 = [.createUsersTable]) := by
  have h1 := hok .createUsersTable
  have h2 := hok (.insertIgnoreSampleUsers sampleUsers)
  by_cases hrt : rt = "Create" <;>
    simp [basicInitRun, h1, h2, hrt]

/-- C10, witness: the statement traces for a `Create` and an `Update`
event. -/
theorem c10_witness :
    (MysqlStmt.insertIgnoreSampleUsers sampleUsers ∈
      (basicInitRun "Create" (fun _ => .ok ())).2) ∧
    (basicInitRun "Update" (fun _ => .ok ())).2 = [.createUsersTable] :=
  ⟨ ( c10_theorem "Create" (fun _ => .ok ()) (fun _ => rfl)).1.mpr rfl,
   ( c10_theorem "Update" (fun _ => .ok ()) (fun _ => rfl)).2.2.2 (by decide)⟩
